import Mathlib

/-!
Shallow embedding of `src/spacefx/security/validation.py` (Azure Orbital
Space SDK client, security validation module).

Strings are modelled as `List Char` (Python `str` is a sequence of Unicode
code points).  Each Python function is translated to a Lean function of the
same name; module-level constants keep their source names.  Python string
literals are embedded with their escape sequences *evaluated*, exactly as the
Python interpreter does (e.g. `'\\n'` in a Python literal is the two
characters backslash and `n`, not a newline).
-/

/-- The backslash character (code point 92). -/
def bslashChar : Char := Char.ofNat 92

/-- The single-quote character (code point 39). -/
def squoteChar : Char := Char.ofNat 39

/-- The double-quote character (code point 34). -/
def dquoteChar : Char := Char.ofNat 34

/-- The backtick character (code point 96). -/
def btickChar : Char := Char.ofNat 96

/-- The newline character (code point 10). -/
def nlChar : Char := Char.ofNat 10

/-- The carriage-return character (code point 13). -/
def crChar : Char := Char.ofNat 13

/-- The horizontal-tab character (code point 9). -/
def tabChar : Char := Char.ofNat 9

/-- The NUL character (code point 0). -/
def nulChar : Char := Char.ofNat 0

/-- The left-brace character (code point 123). -/
def lbraceChar : Char := Char.ofNat 123

/-- The right-brace character (code point 125). -/
def rbraceChar : Char := Char.ofNat 125

/-- Code points for which CPython's `str.isspace()` returns true: the ASCII
whitespace characters, the C1 separators, NEL, NBSP and the Unicode space
separators plus LS/PS. -/
def pyWhitespaceCodes : List Nat :=
  [9, 10, 11, 12, 13, 28, 29, 30, 31, 32, 133, 160, 0x1680,
   0x2000, 0x2001, 0x2002, 0x2003, 0x2004, 0x2005, 0x2006, 0x2007,
   0x2008, 0x2009, 0x200a, 0x2028, 0x2029, 0x202f, 0x205f, 0x3000]

/-- Python `str.isspace()` on a single character. -/
def pyIsSpace (c : Char) : Bool :=
  decide (c.toNat ∈ pyWhitespaceCodes)

/-- Python `s.isspace()`: true iff `s` is non-empty and every character is
whitespace. -/
def pyIsSpaceStr (s : List Char) : Bool :=
  !s.isEmpty && s.all pyIsSpace

/-- Character class `[a-z0-9]` (lowercase ASCII alphanumeric). -/
def isLowerAlnum (c : Char) : Bool :=
  decide ((97 ≤ c.toNat ∧ c.toNat ≤ 122) ∨ (48 ≤ c.toNat ∧ c.toNat ≤ 57))

/-- Character class `[a-zA-Z0-9]` (ASCII alphanumeric). -/
def isAsciiAlnum (c : Char) : Bool :=
  decide ((97 ≤ c.toNat ∧ c.toNat ≤ 122) ∨ (65 ≤ c.toNat ∧ c.toNat ≤ 90) ∨
          (48 ≤ c.toNat ∧ c.toNat ≤ 57))

/-- Character class `[a-zA-Z0-9_.-]` of `_DOCKER_TAG_PATTERN`,
`_FILENAME_PATTERN` and `_HELM_PARAMETER_PATTERN` (the three classes list
the same characters): ASCII alnum plus underscore (95), dot (46), hyphen (45). -/
def isTagChar (c : Char) : Bool :=
  isAsciiAlnum c || decide (c.toNat = 95 ∨ c.toNat = 46 ∨ c.toNat = 45)

/-- Character class of `_HELM_VALUE_PATTERN`: ASCII alnum plus dot (46),
underscore (95), colon (58), slash (47), hyphen (45). -/
def isHelmValueChar (c : Char) : Bool :=
  isAsciiAlnum c ||
    decide (c.toNat = 46 ∨ c.toNat = 95 ∨ c.toNat = 58 ∨ c.toNat = 47 ∨ c.toNat = 45)

/-- Character class of `_K8S_NAMESPACE_PATTERN`: lowercase alnum plus hyphen (45). -/
def isNsChar (c : Char) : Bool :=
  isLowerAlnum c || decide (c.toNat = 45)

/-- Character class of `_K8S_RESOURCE_NAME_PATTERN`: lowercase alnum plus
dot (46) and hyphen (45). -/
def isRnChar (c : Char) : Bool :=
  isLowerAlnum c || decide (c.toNat = 46 ∨ c.toNat = 45)

/-- Character class of the identifier start: ASCII letter or underscore (95). -/
def isIdStartChar (c : Char) : Bool :=
  decide ((97 ≤ c.toNat ∧ c.toNat ≤ 122) ∨ (65 ≤ c.toNat ∧ c.toNat ≤ 90) ∨ c.toNat = 95)

/-- Character class of the identifier continuation: ASCII alnum or underscore (95). -/
def isIdChar (c : Char) : Bool :=
  isAsciiAlnum c || decide (c.toNat = 95)

/-- Character class of `_ALPHANUMERIC_DASH_PATTERN`: ASCII alnum or hyphen (45). -/
def isAdChar (c : Char) : Bool :=
  isAsciiAlnum c || decide (c.toNat = 45)

/-- Separator group of `_DOCKER_IMAGE_NAME_PATTERN`: dot (46),
underscore (95), slash (47), hyphen (45). -/
def isImageSep (c : Char) : Bool :=
  decide (c.toNat = 46 ∨ c.toNat = 95 ∨ c.toNat = 47 ∨ c.toNat = 45)

mutual

/-- Matches the docker-image-name regex body (alnum-plus runs joined by single separators) against an entire string:
the position is at the start of a required `[a-z0-9]+` run.  The alnum and
separator classes are disjoint, so the greedy regex is equivalent to this
deterministic scan. -/
def imageBodySeg : List Char → Bool
  | [] => false
  | c :: rest => isLowerAlnum c && imageBodyRest rest

/-- Continuation of `imageBodySeg`: inside an alnum run; the string may end,
the run may continue, or a separator may start the next required run. -/
def imageBodyRest : List Char → Bool
  | [] => true
  | c :: rest =>
      if isLowerAlnum c then imageBodyRest rest
      else isImageSep c && imageBodySeg rest

end

/-- Body of `_DOCKER_IMAGE_NAME_PATTERN = lowercase-alnum segments separated by single separators . _ / -`
(without the `$` behaviour, which `pyMatchDollar` adds). -/
def imageBody (s : List Char) : Bool := imageBodySeg s

/-- Body of `_DOCKER_TAG_PATTERN = r'^[a-zA-Z0-9_.-]{1,128}$'`. -/
def tagBody (s : List Char) : Bool :=
  s.all isTagChar && decide (1 ≤ s.length ∧ s.length ≤ 128)

/-- Body of `_FILENAME_PATTERN = r'^[a-zA-Z0-9_.-]+$'`. -/
def filenameBody (s : List Char) : Bool :=
  !s.isEmpty && s.all isTagChar

/-- Body of `_HELM_PARAMETER_PATTERN = r'^[a-zA-Z0-9._-]+$'`. -/
def helmParameterBody (s : List Char) : Bool :=
  !s.isEmpty && s.all isTagChar

/-- Body of `_HELM_VALUE_PATTERN = one or more of: ASCII alnum . _ : / -`. -/
def helmValueBody (s : List Char) : Bool :=
  !s.isEmpty && s.all isHelmValueChar

/-- Body of `_K8S_NAMESPACE_PATTERN = r'^[a-z0-9]([a-z0-9-]*[a-z0-9])?$'`:
a first `[a-z0-9]` character, optionally followed by characters of
`[a-z0-9-]` of which the last must be `[a-z0-9]`. -/
def nsBody (s : List Char) : Bool :=
  match s with
  | [] => false
  | c :: rest =>
      isLowerAlnum c &&
      (match rest.getLast? with
       | none => true
       | some d => rest.all isNsChar && isLowerAlnum d)

/-- Body of `_K8S_RESOURCE_NAME_PATTERN = r'^[a-z0-9]([a-z0-9.-]*[a-z0-9])?$'`. -/
def rnBody (s : List Char) : Bool :=
  match s with
  | [] => false
  | c :: rest =>
      isLowerAlnum c &&
      (match rest.getLast? with
       | none => true
       | some d => rest.all isRnChar && isLowerAlnum d)

/-- Body of `_IDENTIFIER_PATTERN = r'^[a-zA-Z_][a-zA-Z0-9_]*$'`. -/
def idBody (s : List Char) : Bool :=
  match s with
  | [] => false
  | c :: rest => isIdStartChar c && rest.all isIdChar

/-- Body of `_ALPHANUMERIC_DASH_PATTERN = r'^[a-zA-Z0-9-]+$'`. -/
def adBody (s : List Char) : Bool :=
  !s.isEmpty && s.all isAdChar

/-- Python `pattern.match` for a pattern of the form `^BODY$`: the match
succeeds iff `BODY` matches the whole string, or — because Python's `$`
also matches just before a newline that ends the string — `BODY` matches
everything before a final newline. -/
def pyMatchDollar (body : List Char → Bool) (s : List Char) : Bool :=
  body s ||
  (match s.getLast? with
   | some c => c = nlChar && body s.dropLast
   | none => false)

-- Length constraints (source names, `validation.py` lines 62-71)

def MAX_DOCKER_IMAGE_NAME_LENGTH : Nat := 255
def MAX_DOCKER_TAG_LENGTH : Nat := 128
def MAX_FILENAME_LENGTH : Nat := 255
def MAX_FILEPATH_LENGTH : Nat := 4096
def MAX_K8S_NAMESPACE_LENGTH : Nat := 63
def MAX_K8S_RESOURCE_NAME_LENGTH : Nat := 253
def MAX_HELM_PARAMETER_LENGTH : Nat := 255
def MAX_HELM_VALUE_LENGTH : Nat := 1024
def MAX_IDENTIFIER_LENGTH : Nat := 255

/-- `validate_docker_image_name` (body on an already-type-checked `str`). -/
def validate_docker_image_name (image_name : List Char) : Bool :=
  if image_name.isEmpty || pyIsSpaceStr image_name then false
  else if image_name.length > MAX_DOCKER_IMAGE_NAME_LENGTH then false
  else pyMatchDollar imageBody image_name

/-- `validate_docker_tag`. -/
def validate_docker_tag (tag : List Char) : Bool :=
  if tag.isEmpty || pyIsSpaceStr tag then false
  else pyMatchDollar tagBody tag

/-- `validate_helm_parameter`. -/
def validate_helm_parameter (parameter : List Char) : Bool :=
  if parameter.isEmpty || pyIsSpaceStr parameter then false
  else if parameter.length > MAX_HELM_PARAMETER_LENGTH then false
  else pyMatchDollar helmParameterBody parameter

/-- `validate_helm_value`. -/
def validate_helm_value (value : List Char) : Bool :=
  if value.isEmpty || pyIsSpaceStr value then false
  else if value.length > MAX_HELM_VALUE_LENGTH then false
  else pyMatchDollar helmValueBody value

/-- `validate_kubernetes_namespace`. -/
def validate_kubernetes_namespace (namespace_name : List Char) : Bool :=
  if namespace_name.isEmpty || pyIsSpaceStr namespace_name then false
  else if namespace_name.length > MAX_K8S_NAMESPACE_LENGTH then false
  else pyMatchDollar nsBody namespace_name

/-- `validate_kubernetes_resource_name`. -/
def validate_kubernetes_resource_name (resource_name : List Char) : Bool :=
  if resource_name.isEmpty || pyIsSpaceStr resource_name then false
  else if resource_name.length > MAX_K8S_RESOURCE_NAME_LENGTH then false
  else pyMatchDollar rnBody resource_name

/-- `validate_identifier`. -/
def validate_identifier (identifier : List Char) : Bool :=
  if identifier.isEmpty || pyIsSpaceStr identifier then false
  else if identifier.length > MAX_IDENTIFIER_LENGTH then false
  else pyMatchDollar idBody identifier

/-- `is_valid_identifier` (alias of `validate_identifier`). -/
def is_valid_identifier (input_str : List Char) : Bool :=
  validate_identifier input_str

/-- Python `str.isalnum()`, modelled on the ASCII range (the theorems below
never depend on its value for non-ASCII input: the claims about
`is_alphanumeric` only exercise the emptiness/whitespace guards that run
before `isalnum`). -/
def pyIsAlnum (s : List Char) : Bool :=
  !s.isEmpty && s.all isAsciiAlnum

/-- `is_alphanumeric`. -/
def is_alphanumeric (input_str : List Char) : Bool :=
  if input_str.isEmpty || pyIsSpaceStr input_str then false
  else pyIsAlnum input_str

/-- `is_alphanumeric_with_dash`. -/
def is_alphanumeric_with_dash (input_str : List Char) : Bool :=
  if input_str.isEmpty || pyIsSpaceStr input_str then false
  else pyMatchDollar adBody input_str

-- Shell security functions

/-- `_SHELL_METACHARACTERS` with the Python escapes evaluated: in the source
literal, each doubled backslash is a single backslash character, so the set
contains a backslash four times and the plain letters `n`, `r`, `t` — it
does *not* contain the newline, carriage-return or tab characters. -/
def SHELL_METACHARACTERS : List Char :=
  ['|', '&', ';', '<', '>', '(', ')', '$', btickChar, bslashChar, dquoteChar,
   squoteChar, bslashChar, 'n', bslashChar, 'r', bslashChar, 't',
   '*', '?', '[', ']', lbraceChar, rbraceChar, '!', '#', '~']

/-- `contains_shell_metacharacters` (body on an already-type-checked `str`):
`any(char in _SHELL_METACHARACTERS for char in input_str)`. -/
def contains_shell_metacharacters (input_str : List Char) : Bool :=
  input_str.any (fun c => SHELL_METACHARACTERS.contains c)

/-- Python `argument.replace(squote, squote backslash squote squote)`: each
single quote becomes the four characters quote, backslash, quote, quote
(close the quoting, emit an escaped quote, reopen the quoting). -/
def pyReplaceSquote (s : List Char) : List Char :=
  s.flatMap (fun c =>
    if c = squoteChar then [squoteChar, bslashChar, squoteChar, squoteChar]
    else [c])

/-- `sanitize_shell_argument`: empty input yields two single quotes;
otherwise the input is wrapped in single quotes with embedded single quotes
escaped via `pyReplaceSquote`. -/
def sanitize_shell_argument (argument : List Char) : List Char :=
  if argument.isEmpty then [squoteChar, squoteChar]
  else squoteChar :: (pyReplaceSquote argument ++ [squoteChar])

/-- POSIX shell word interpretation as a two-mode scanner; the mode is
`false` outside quotes and `true` inside single quotes.
Outside quotes: a backslash escapes the next character (a trailing
backslash is a malformed word), a single quote enters single-quoting,
everything else is literal.  Inside single quotes: every character up to
the closing quote is literal; an unterminated quote is a malformed word.
(Double-quote processing is irrelevant here: `sanitize_shell_argument`
never emits an unquoted double quote.) -/
def posixUnquote : Bool → List Char → Option (List Char)
  | false, [] => some []
  | false, c :: t =>
      if c = bslashChar then
        match t with
        | [] => none
        | d :: t2 => (posixUnquote false t2).map (fun r => d :: r)
      else if c = squoteChar then posixUnquote true t
      else (posixUnquote false t).map (fun r => c :: r)
  | true, [] => none
  | true, c :: t =>
      if c = squoteChar then posixUnquote false t
      else (posixUnquote true t).map (fun r => c :: r)

/-- Interpret a complete string as one POSIX shell word (starting outside
any quotes). -/
def posixUnquoteWord (s : List Char) : Option (List Char) :=
  posixUnquote false s

-- General sanitization

/-- `ALPHANUMERIC_CHARS` (source line 74). -/
def ALPHANUMERIC_CHARS : List Char :=
  "abcdefghijklmnopqrstuvwxyzABCDEFGHIJKLMNOPQRSTUVWXYZ0123456789".data

/-- `ALPHANUMERIC_WITH_SEPARATORS` (source line 75). -/
def ALPHANUMERIC_WITH_SEPARATORS : List Char :=
  "abcdefghijklmnopqrstuvwxyzABCDEFGHIJKLMNOPQRSTUVWXYZ0123456789-_.".data

/-- `LOWERCASE_ALPHANUMERIC` (source line 76). -/
def LOWERCASE_ALPHANUMERIC : List Char :=
  "abcdefghijklmnopqrstuvwxyz0123456789".data

/-- `NUMERIC_CHARS` (source line 77). -/
def NUMERIC_CHARS : List Char := "0123456789".data

/-- `HEX_CHARS_LOWER` (source line 78). -/
def HEX_CHARS_LOWER : List Char := "0123456789abcdef".data

/-- `sanitize_input` (body on already-type-checked `str` arguments):
`join(char for char in input_str if char in allowed_set)` where
`allowed_set = set(allowed_chars)` — membership in the set equals membership
in the list. -/
def sanitize_input (input_str allowed_chars : List Char) : List Char :=
  (input_str.map (fun c =>
    if allowed_chars.contains c then [c] else [])).flatten

-- Path machinery (POSIX `os.path`, as used on the target platform where
-- `os.sep` is the slash and `os.altsep` is `None`)

/-- Python's substring test `sub in s`. -/
def pyInStr (sub : List Char) : List Char → Bool
  | [] => sub.isEmpty
  | c :: rest => sub.isPrefixOf (c :: rest) || pyInStr sub rest

/-- Python `str.lower()` (ASCII model; every string it is applied to below
is ASCII). -/
def pyLower (s : List Char) : List Char := s.map Char.toLower

/-- Python `str.upper()` (ASCII model; every string it is compared against
below is ASCII). -/
def pyUpper (s : List Char) : List Char := s.map Char.toUpper

/-- ASCII hexadecimal digit. -/
def isHexDigit (c : Char) : Bool :=
  decide ((48 ≤ c.toNat ∧ c.toNat ≤ 57) ∨ (97 ≤ c.toNat ∧ c.toNat ≤ 102) ∨
          (65 ≤ c.toNat ∧ c.toNat ≤ 70))

/-- Value of an ASCII hexadecimal digit. -/
def hexVal (c : Char) : Nat :=
  if 48 ≤ c.toNat ∧ c.toNat ≤ 57 then c.toNat - 48
  else if 97 ≤ c.toNat then c.toNat - 87
  else c.toNat - 55

/-- `urllib.parse.unquote`: one pass of percent-decoding.  A percent sign
followed by two hex digits becomes the denoted byte; otherwise the percent
sign is kept literally.  (Model note: CPython additionally UTF-8-decodes
consecutive high bytes; this model maps each byte to its code point, which
agrees with CPython on ASCII.  The theorems below only ever evaluate this
function on inputs where the two agree, or inside branches whose outcome
does not depend on it.  `unquote` never raises, so the source's
`try/except` around it is dead.) -/
def pyUnquote : List Char → List Char
  | [] => []
  | [c] => [c]
  | [c, a] => [c, a]
  | c :: a :: b :: t =>
      if c = '%' && isHexDigit a && isHexDigit b then
        Char.ofNat (16 * hexVal a + hexVal b) :: pyUnquote t
      else c :: pyUnquote (a :: b :: t)

/-- `_PATH_TRAVERSAL_PATTERN.search`, the regex with raw text
dot-dot, or slash-dot, or backslash backslash any-non-newline (the raw
literal's doubled backslashes each match one literal backslash, and the
final regex dot matches any character except newline).  True iff the
pattern matches at some position. -/
def travRegexSearch : List Char → Bool
  | [] => false
  | c :: rest =>
      ((c = '.' || c = '/') && rest.head? = some '.')
      || (c = bslashChar &&
          (match rest with
           | d :: e :: _ => d = bslashChar && e ≠ nlChar
           | _ => false))
      || travRegexSearch rest

/-- `_PATH_TRAVERSAL_SEQUENCES` with the Python escapes evaluated: each
doubled backslash in the source literal is one backslash character. -/
def PATH_TRAVERSAL_SEQUENCES : List (List Char) :=
  [ "..".data,
    "/..".data,
    ['.', bslashChar, bslashChar],
    [bslashChar, bslashChar, '.', '.'],
    ['.', '.', bslashChar, bslashChar],
    "../".data,
    "%2e%2e".data,
    "%252e%252e".data,
    "..%2f".data,
    "..%5c".data ]

/-- `_NULL_BYTE_SEQUENCES` with the Python escapes evaluated: the
two-character sequence backslash `0`, the percent-encoding, and the
six-character sequence backslash `u0000`.  The literal NUL character is
*not* among them. -/
def NULL_BYTE_SEQUENCES : List (List Char) :=
  [ [bslashChar, '0'], "%00".data, [bslashChar, 'u', '0', '0', '0', '0'] ]

/-- `contains_path_traversal` (body on an already-type-checked `str`). -/
def contains_path_traversal (path : List Char) : Bool :=
  if travRegexSearch path then true
  else if PATH_TRAVERSAL_SEQUENCES.any
      (fun sequence => pyInStr (pyLower sequence) (pyLower path)) then true
  else
    let decoded := pyUnquote path
    if (decoded ≠ path : Bool) && travRegexSearch decoded then true
    else false

/-- Python `'/'`-split (`path.split(sep)` for one-character `sep`). -/
def pySplitSlash : List Char → List (List Char)
  | [] => [[]]
  | c :: rest =>
      if c = '/' then [] :: pySplitSlash rest
      else
        match pySplitSlash rest with
        | [] => [[c]]
        | h :: t => (c :: h) :: t

/-- The component loop of `posixpath.normpath`: empty and `.` components are
dropped; `..` is appended when it cannot cancel (relative prefix, or a
preceding `..`), otherwise it pops the previous component. -/
def normNewComps (initialSlashes : Nat) (comps : List (List Char)) : List (List Char) :=
  comps.foldl
    (fun newComps comp =>
      if comp = [] || comp = ['.'] then newComps
      else if comp ≠ ['.', '.'] || (initialSlashes = 0 && newComps.isEmpty)
              || (!newComps.isEmpty && newComps.getLast? = some ['.', '.']) then
        newComps ++ [comp]
      else if !newComps.isEmpty then newComps.dropLast
      else newComps)
    []

/-- `posixpath.normpath`: purely lexical normalization (collapse slashes,
drop `.`, cancel `..` against preceding components; a double — but not
triple — leading slash is preserved). -/
def posixNormpath (path : List Char) : List Char :=
  if path.isEmpty then ['.']
  else
    let initialSlashes : Nat :=
      if path.head? = some '/' then
        if (['/', '/'].isPrefixOf path) && !(['/', '/', '/'].isPrefixOf path)
        then 2 else 1
      else 0
    let comps := pySplitSlash path
    let newComps := normNewComps initialSlashes comps
    let joined := List.replicate initialSlashes '/' ++ List.intercalate ['/'] newComps
    if joined.isEmpty then ['.'] else joined

/-- `posixpath.join` for two arguments. -/
def posixJoin (a b : List Char) : List Char :=
  if b.head? = some '/' then b
  else if a.isEmpty || a.getLast? = some '/' then a ++ b
  else a ++ '/' :: b

/-- `posixpath.expanduser`, parameterized by the value of the `HOME`
environment variable.  A leading bare `~` expands to `HOME` (stripped of
trailing slashes, falling back to the root when the result is empty); a
`~user` form requires a password-database lookup, modelled as an unknown
user, for which CPython returns the path unchanged; anything else is
returned unchanged. -/
def posixExpanduser (home : List Char) (path : List Char) : List Char :=
  if path.head? ≠ some '~' then path
  else
    let i := match (path.drop 1).findIdx? (· = '/') with
             | some j => j + 1
             | none => path.length
    if i = 1 then
      let userhome := (home.reverse.dropWhile (· = '/')).reverse
      let res := userhome ++ path.drop i
      if res.isEmpty then ['/'] else res
    else path

/-- `posixpath.abspath`, parameterized by the current working directory:
`normpath(path)` when the path is absolute, else `normpath(join(cwd, path))`.
Purely lexical — it does **not** consult the filesystem and in particular
does not resolve symbolic links. -/
def posixAbspath (cwd : List Char) (path : List Char) : List Char :=
  if path.head? = some '/' then posixNormpath path
  else posixNormpath (posixJoin cwd path)

/-- The process environment the path functions read: the working directory
(used by `abspath` on relative paths) and `HOME` (used by `expanduser`). -/
structure PyEnv where
  cwd : List Char
  home : List Char

/-- `os.path.abspath(os.path.expanduser(p))` — the resolution applied by
`is_within_directory` to both of its arguments. -/
def resolvePath (env : PyEnv) (p : List Char) : List Char :=
  posixAbspath env.cwd (posixExpanduser env.home p)

/-- The comparison step of `is_within_directory`, applied to the two
resolved paths: append a trailing separator to the base unless it already
ends with one, then test string-prefix containment. -/
def is_within_directory_core (full_path full_base : List Char) : Bool :=
  let fb := if full_base.getLast? = some '/' then full_base else full_base ++ ['/']
  fb.isPrefixOf full_path

/-- `is_within_directory` (body on already-type-checked `str` arguments),
on the non-raising execution path. -/
def is_within_directory (env : PyEnv) (path base_directory : List Char) : Bool :=
  is_within_directory_core (resolvePath env path) (resolvePath env base_directory)

/-- The errors the path-resolution calls (`os.path.expanduser`,
`os.path.abspath` on `str` arguments) can raise: `ValueError` or `OSError`
(e.g. `os.getcwd` failing).  This is the modelled error universe for the
resolution step. -/
inductive ResolutionErr where
  | valueError : ResolutionErr
  | osError : ResolutionErr
deriving DecidableEq, Repr

/-- Python exceptions surfaced by this module's public functions. -/
inductive PyErr where
  | typeError (msg : List Char) : PyErr
  | valueError : PyErr
  | osError : PyErr
deriving DecidableEq, Repr

/-- A resolution error propagated as a Python exception. -/
def ResolutionErr.toPyErr : ResolutionErr → PyErr
  | .valueError => PyErr.valueError
  | .osError => PyErr.osError

/-- `is_within_directory` with the exception behaviour made explicit: the
resolution step's outcome (the two resolved paths, or a resolution error)
is a parameter; the source's `except (ValueError, OSError)` clause turns
exactly those two errors into a `False` verdict, and any other error would
propagate. -/
def is_within_directory_exc
    (outcome : Except ResolutionErr (List Char × List Char)) : Except PyErr Bool :=
  match outcome with
  | .ok (full_path, full_base) => .ok (is_within_directory_core full_path full_base)
  | .error e =>
      if e = ResolutionErr.valueError || e = ResolutionErr.osError then .ok false
      else .error e.toPyErr

/-- `validate_file_path` (body on already-type-checked `str` arguments),
on the non-raising execution path. -/
def validate_file_path (env : PyEnv) (path base_path : List Char) : Bool :=
  if path.isEmpty || pyIsSpaceStr path then false
  else if path.length > MAX_FILEPATH_LENGTH then false
  else if NULL_BYTE_SEQUENCES.any (fun null_byte => pyInStr null_byte path) then false
  else if contains_path_traversal path then false
  else is_within_directory env path base_path

/-- `validate_file_path` with the exception behaviour of the containment
step made explicit (see `is_within_directory_exc`). -/
def validate_file_path_exc (path : List Char)
    (outcome : Except ResolutionErr (List Char × List Char)) : Except PyErr Bool :=
  if path.isEmpty || pyIsSpaceStr path then .ok false
  else if path.length > MAX_FILEPATH_LENGTH then .ok false
  else if NULL_BYTE_SEQUENCES.any (fun null_byte => pyInStr null_byte path) then .ok false
  else if contains_path_traversal path then .ok false
  else is_within_directory_exc outcome

-- Filename validation

/-- Index of the last occurrence of a character (Python `str.rfind`,
returning `none` instead of -1). -/
def lastIndexOf (c : Char) (s : List Char) : Option Nat :=
  ((s.enum.filter (fun p => p.2 = c)).getLast?).map (fun p => p.1)

/-- `posixpath.splitext`: split off the extension at the last dot, provided
that dot lies inside the basename (after the last slash) and the basename
does not consist solely of leading dots up to it. -/
def pySplitext (p : List Char) : List Char × List Char :=
  match lastIndexOf '.' p with
  | none => (p, [])
  | some dotIndex =>
      let filenameStart := match lastIndexOf '/' p with
                           | none => 0
                           | some sepIndex => sepIndex + 1
      if dotIndex ≥ filenameStart then
        if (List.range' filenameStart (dotIndex - filenameStart)).any
            (fun j => !(p.get? j == some '.')) then
          (p.take dotIndex, p.drop dotIndex)
        else (p, [])
      else (p, [])

/-- `_WINDOWS_RESERVED_NAMES`. -/
def WINDOWS_RESERVED_NAMES : List (List Char) :=
  [ "CON".data, "PRN".data, "AUX".data, "NUL".data,
    "COM1".data, "COM2".data, "COM3".data, "COM4".data, "COM5".data,
    "COM6".data, "COM7".data, "COM8".data, "COM9".data,
    "LPT1".data, "LPT2".data, "LPT3".data, "LPT4".data, "LPT5".data,
    "LPT6".data, "LPT7".data, "LPT8".data, "LPT9".data ]

/-- `validate_filename` (body on an already-type-checked `str`); on the
target platform `os.sep` is the slash and `os.altsep` is `None`, so the
path-separator test is a slash test. -/
def validate_filename (filename : List Char) : Bool :=
  if filename.isEmpty || pyIsSpaceStr filename then false
  else if filename.length > MAX_FILENAME_LENGTH then false
  else if pyInStr ['/'] filename then false
  else if !(pyMatchDollar filenameBody filename) then false
  else if WINDOWS_RESERVED_NAMES.contains (pyUpper (pySplitext filename).1) then false
  else true

/-- `is_safe_filename` (alias of `validate_filename`). -/
def is_safe_filename (filename : List Char) : Bool :=
  validate_filename filename

-- Python-level wrappers making the `isinstance` type check explicit.
-- A value passed to a public function is either a text value or a value of
-- some other runtime type, of which only the type name matters here.

/-- A Python argument value as far as this module observes it: a `str`, or
a non-`str` value of a given runtime type name. -/
inductive PyVal where
  | str (s : List Char) : PyVal
  | nonStr (typeName : List Char) : PyVal
deriving DecidableEq, Repr

/-- The message of the `TypeError` each public function raises:
`<param> must be a string, got <type name>`. -/
def typeErrorMsg (param ty : List Char) : List Char :=
  param ++ " must be a string, got ".data ++ ty

/-- `validate_docker_image_name` with its `isinstance` check. -/
def validate_docker_image_name_py (image_name : PyVal) : Except PyErr Bool :=
  match image_name with
  | .str s => .ok (validate_docker_image_name s)
  | .nonStr ty => .error (PyErr.typeError (typeErrorMsg "image_name".data ty))

/-- `validate_docker_tag` with its `isinstance` check. -/
def validate_docker_tag_py (tag : PyVal) : Except PyErr Bool :=
  match tag with
  | .str s => .ok (validate_docker_tag s)
  | .nonStr ty => .error (PyErr.typeError (typeErrorMsg "tag".data ty))

/-- `validate_filename` with its `isinstance` check. -/
def validate_filename_py (filename : PyVal) : Except PyErr Bool :=
  match filename with
  | .str s => .ok (validate_filename s)
  | .nonStr ty => .error (PyErr.typeError (typeErrorMsg "filename".data ty))

/-- `is_safe_filename` delegates to `validate_filename`. -/
def is_safe_filename_py (filename : PyVal) : Except PyErr Bool :=
  validate_filename_py filename

/-- `validate_helm_parameter` with its `isinstance` check. -/
def validate_helm_parameter_py (parameter : PyVal) : Except PyErr Bool :=
  match parameter with
  | .str s => .ok (validate_helm_parameter s)
  | .nonStr ty => .error (PyErr.typeError (typeErrorMsg "parameter".data ty))

/-- `validate_helm_value` with its `isinstance` check. -/
def validate_helm_value_py (value : PyVal) : Except PyErr Bool :=
  match value with
  | .str s => .ok (validate_helm_value s)
  | .nonStr ty => .error (PyErr.typeError (typeErrorMsg "value".data ty))

/-- `validate_kubernetes_namespace` with its `isinstance` check. -/
def validate_kubernetes_namespace_py (namespace_name : PyVal) : Except PyErr Bool :=
  match namespace_name with
  | .str s => .ok (validate_kubernetes_namespace s)
  | .nonStr ty => .error (PyErr.typeError (typeErrorMsg "namespace_name".data ty))

/-- `validate_kubernetes_resource_name` with its `isinstance` check. -/
def validate_kubernetes_resource_name_py (resource_name : PyVal) : Except PyErr Bool :=
  match resource_name with
  | .str s => .ok (validate_kubernetes_resource_name s)
  | .nonStr ty => .error (PyErr.typeError (typeErrorMsg "resource_name".data ty))

/-- `validate_identifier` with its `isinstance` check. -/
def validate_identifier_py (identifier : PyVal) : Except PyErr Bool :=
  match identifier with
  | .str s => .ok (validate_identifier s)
  | .nonStr ty => .error (PyErr.typeError (typeErrorMsg "identifier".data ty))

/-- `is_valid_identifier` delegates to `validate_identifier`. -/
def is_valid_identifier_py (input_str : PyVal) : Except PyErr Bool :=
  validate_identifier_py input_str

/-- `is_alphanumeric` with its `isinstance` check. -/
def is_alphanumeric_py (input_str : PyVal) : Except PyErr Bool :=
  match input_str with
  | .str s => .ok (is_alphanumeric s)
  | .nonStr ty => .error (PyErr.typeError (typeErrorMsg "input_str".data ty))

/-- `is_alphanumeric_with_dash` with its `isinstance` check. -/
def is_alphanumeric_with_dash_py (input_str : PyVal) : Except PyErr Bool :=
  match input_str with
  | .str s => .ok (is_alphanumeric_with_dash s)
  | .nonStr ty => .error (PyErr.typeError (typeErrorMsg "input_str".data ty))

/-- `contains_shell_metacharacters` with its `isinstance` check. -/
def contains_shell_metacharacters_py (input_str : PyVal) : Except PyErr Bool :=
  match input_str with
  | .str s => .ok (contains_shell_metacharacters s)
  | .nonStr ty => .error (PyErr.typeError (typeErrorMsg "input_str".data ty))

/-- `contains_path_traversal` with its `isinstance` check. -/
def contains_path_traversal_py (path : PyVal) : Except PyErr Bool :=
  match path with
  | .str s => .ok (contains_path_traversal s)
  | .nonStr ty => .error (PyErr.typeError (typeErrorMsg "path".data ty))

/-- `sanitize_shell_argument` with its `isinstance` check. -/
def sanitize_shell_argument_py (argument : PyVal) : Except PyErr (List Char) :=
  match argument with
  | .str s => .ok (sanitize_shell_argument s)
  | .nonStr ty => .error (PyErr.typeError (typeErrorMsg "argument".data ty))

/-- `sanitize_input` with its two `isinstance` checks, in source order
(`input_str` first, then `allowed_chars`). -/
def sanitize_input_py (input_str allowed_chars : PyVal) : Except PyErr (List Char) :=
  match input_str with
  | .nonStr ty => .error (PyErr.typeError (typeErrorMsg "input_str".data ty))
  | .str s =>
      match allowed_chars with
      | .nonStr ty => .error (PyErr.typeError (typeErrorMsg "allowed_chars".data ty))
      | .str a => .ok (sanitize_input s a)

/-- `validate_file_path` with its two `isinstance` checks, in source order
(`path` first, then `base_path`). -/
def validate_file_path_py (env : PyEnv) (path base_path : PyVal) : Except PyErr Bool :=
  match path with
  | .nonStr ty => .error (PyErr.typeError (typeErrorMsg "path".data ty))
  | .str p =>
      match base_path with
      | .nonStr ty => .error (PyErr.typeError (typeErrorMsg "base_path".data ty))
      | .str b => .ok (validate_file_path env p b)

/-- `is_within_directory` with its two `isinstance` checks, in source order
(`path` first, then `base_directory`). -/
def is_within_directory_py (env : PyEnv) (path base_directory : PyVal) : Except PyErr Bool :=
  match path with
  | .nonStr ty => .error (PyErr.typeError (typeErrorMsg "path".data ty))
  | .str p =>
      match base_directory with
      | .nonStr ty => .error (PyErr.typeError (typeErrorMsg "base_directory".data ty))
      | .str b => .ok (is_within_directory env p b)

-- Specification-side containment predicate (for comparison with the code)

/-- Modelled from the spec: the missing ingredient of the specified
canonical form is symlink resolution, which `validation.py` never performs.
A filesystem is modelled as a table mapping an absolute path to its symlink
target; an absolute, lexically normalized path is resolved component by
component, replacing a component that names a symlink by the link's
(absolute) target. -/
def specResolveSymlinks (fs : List (List Char × List Char)) (p : List Char) : List Char :=
  let acc := (pySplitSlash p).foldl
    (fun acc comp =>
      if comp.isEmpty then acc
      else
        let cand := acc ++ '/' :: comp
        match fs.lookup cand with
        | some target => target
        | none => cand)
    []
  if acc.isEmpty then ['/'] else acc

/-- Modelled from the spec: the "absolute, symlink-resolved, tilde-expanded
canonical form" of a path. -/
def specCanonicalForm (fs : List (List Char × List Char)) (env : PyEnv)
    (p : List Char) : List Char :=
  specResolveSymlinks fs (posixAbspath env.cwd (posixExpanduser env.home p))

/-- Modelled from the spec: accept iff the canonical form of the path
starts with the canonical form of the base directory with a trailing
separator appended. -/
def specIsWithinDirectory (fs : List (List Char × List Char)) (env : PyEnv)
    (path base_directory : List Char) : Bool :=
  let cp := specCanonicalForm fs env path
  let cb := specCanonicalForm fs env base_directory
  let cb := if cb.getLast? = some '/' then cb else cb ++ ['/']
  cb.isPrefixOf cp

/-- A one-symlink filesystem: `/var/app/link` points at `/etc`. -/
def fsWithLink : List (List Char × List Char) :=
  [("/var/app/link".data, "/etc".data)]

/-- The reference environment used for concrete evaluations. -/
def env0 : PyEnv := ⟨"/".data, "/root".data⟩

-- Theorems

/-- C1: the claim says `contains_shell_metacharacters` reports true iff
some character is in the metacharacter set containing newline,
carriage-return and tab (and that plain letters and digits are never
reported).  The code disagrees: because the Python set literal
over-escapes its backslashes, the set contains the plain letters `n`, `r`,
`t` instead of the newline, carriage-return and tab characters, so a lone
newline, carriage-return or tab is *not* reported but the letters `n`,
`r`, `t` are — e.g. the all-plain string `safe-filename.txt` (which the
repository's own test asserts to be metacharacter-free) is reported as
containing a metacharacter. -/
theorem C1_shell_metacharacters_set :
    contains_shell_metacharacters [nlChar] = false ∧
    contains_shell_metacharacters [crChar] = false ∧
    contains_shell_metacharacters [tabChar] = false ∧
    contains_shell_metacharacters ['n'] = true ∧
    contains_shell_metacharacters ['r'] = true ∧
    contains_shell_metacharacters ['t'] = true ∧
    contains_shell_metacharacters "safe-filename.txt".data = true := by
  decide

/-- C2: the claim says every path containing *any* null-byte encoding —
including a literal NUL character — is rejected by `validate_file_path`.
The code rejects the three escape spellings (backslash `0`, `%00`,
backslash `u0000`) but `_NULL_BYTE_SEQUENCES` does not contain the literal
NUL character itself (the source literal's backslashes are over-escaped),
and no later stage rejects it either: a path containing a literal NUL
inside the base directory is accepted.  The repository's own test
(`test_validate_file_path_null_byte_injection`) asserts the opposite. -/
theorem C2_null_byte_literal_nul :
    validate_file_path env0
      ("/var/app/data/file.txt".data ++ [nulChar] ++ ".exe".data)
      "/var/app/data".data = true ∧
    validate_file_path env0
      ("/var/app/data/f".data ++ [bslashChar, '0'] ++ ".txt".data)
      "/var/app/data".data = false ∧
    validate_file_path env0 "/var/app/data/f%00.txt".data "/var/app/data".data = false ∧
    validate_file_path env0
      ("/var/app/data/f".data ++ [bslashChar] ++ "u0000.txt".data)
      "/var/app/data".data = false := by
  decide

/-- C3: the claim says `is_within_directory` compares the *symlink-resolved*
canonical forms of its arguments (as the function's own docstring also
states).  The code only applies `os.path.abspath`/`expanduser`, which are
purely lexical: on a filesystem where `/var/app/link` is a symlink to
`/etc`, the path `/var/app/link/passwd` (canonical form `/etc/passwd`,
outside `/var/app`) is nevertheless accepted against base `/var/app`, so
the claimed equivalence fails.  The `/var/app2`-vs-`/var/app` half of the
claim does hold, as the last conjunct shows. -/
theorem C3_is_within_directory_symlinks :
    is_within_directory env0 "/var/app/link/passwd".data "/var/app".data = true ∧
    specIsWithinDirectory fsWithLink env0
      "/var/app/link/passwd".data "/var/app".data = false ∧
    is_within_directory env0 "/var/app2/data".data "/var/app".data = false ∧
    is_within_directory env0 "/var/app/data".data "/var/app".data = true := by
  decide

/-- Helper: the containment check with explicit exceptions always returns a
verdict, whatever the resolution outcome. -/
lemma is_within_directory_exc_isOk
    (outcome : Except ResolutionErr (List Char × List Char)) :
    ∃ b : Bool, is_within_directory_exc outcome = Except.ok b := by
  match outcome with
  | .ok (fp, fb) => exact ⟨_, rfl⟩
  | .error e => cases e <;> exact ⟨false, rfl⟩

/-- C4: any failure during path resolution inside `is_within_directory`
yields a false verdict and never escapes as an exception, and
`validate_file_path` on `str` arguments therefore always returns a boolean:
the `except (ValueError, OSError)` clause covers every error the
resolution step can produce. -/
theorem C4_resolution_failure_false_verdict :
    (∀ e : ResolutionErr,
       is_within_directory_exc (Except.error e) = Except.ok false) ∧
    (∀ outcome, ∃ b : Bool, is_within_directory_exc outcome = Except.ok b) ∧
    (∀ (path : List Char) outcome,
       ∃ b : Bool, validate_file_path_exc path outcome = Except.ok b) := by
  refine ⟨?_, is_within_directory_exc_isOk, ?_⟩
  · intro e; cases e <;> rfl
  · intro path outcome
    simp only [validate_file_path_exc]
    split
    · exact ⟨false, rfl⟩
    · split
      · exact ⟨false, rfl⟩
      · split
        · exact ⟨false, rfl⟩
        · split
          · exact ⟨false, rfl⟩
          · exact is_within_directory_exc_isOk outcome

/-- Helper fact: the quote and backslash characters differ. -/
lemma squote_ne_bslash : ¬squoteChar = bslashChar := by decide

/-- Step lemma: a single quote outside quotes enters single-quote mode. -/
lemma posixUnquote_false_squote (t : List Char) :
    posixUnquote false (squoteChar :: t) = posixUnquote true t := by
  cases t with
  | nil => rw [posixUnquote.eq_2, if_neg squote_ne_bslash, if_pos rfl]
  | cons d t2 => rw [posixUnquote.eq_3, if_neg squote_ne_bslash, if_pos rfl]

/-- Step lemma: a backslash outside quotes escapes the next character. -/
lemma posixUnquote_false_bslash (d : Char) (t : List Char) :
    posixUnquote false (bslashChar :: d :: t)
      = (posixUnquote false t).map (fun r => d :: r) := by
  rw [posixUnquote.eq_3, if_pos rfl]

/-- Step lemma: a single quote inside quotes leaves single-quote mode. -/
lemma posixUnquote_true_squote (t : List Char) :
    posixUnquote true (squoteChar :: t) = posixUnquote false t := by
  rw [posixUnquote.eq_5, if_pos rfl]

/-- Step lemma: inside quotes, any other character is literal. -/
lemma posixUnquote_true_other (c : Char) (t : List Char) (h : ¬c = squoteChar) :
    posixUnquote true (c :: t) = (posixUnquote true t).map (fun r => c :: r) := by
  rw [posixUnquote.eq_5, if_neg h]

/-- Unfolding lemma for `pyReplaceSquote` on a cons cell. -/
lemma pyReplaceSquote_cons (c : Char) (t : List Char) :
    pyReplaceSquote (c :: t) =
      (if c = squoteChar then [squoteChar, bslashChar, squoteChar, squoteChar]
       else [c]) ++ pyReplaceSquote t := by
  simp [pyReplaceSquote]

/-- Helper: reading the escaped interior of a sanitized argument inside
single-quote mode, followed by the closing quote, recovers the original
characters. -/
lemma posixUnquote_escaped (s : List Char) :
    posixUnquote true (pyReplaceSquote s ++ [squoteChar]) = some s := by
  induction s with
  | nil => decide
  | cons c t ih =>
    rw [pyReplaceSquote_cons]
    by_cases hc : c = squoteChar
    · subst hc
      rw [if_pos rfl]
      show posixUnquote true
        (squoteChar :: bslashChar :: squoteChar :: squoteChar ::
          (pyReplaceSquote t ++ [squoteChar])) = _
      rw [posixUnquote_true_squote, posixUnquote_false_bslash,
          posixUnquote_false_squote, ih]
      rfl
    · rw [if_neg hc]
      show posixUnquote true (c :: (pyReplaceSquote t ++ [squoteChar])) = _
      rw [posixUnquote_true_other c _ hc, ih]
      rfl

/-- C7: `sanitize_shell_argument` of the empty string is the two-character
string of two single quotes, and for every argument the result, read back
as one POSIX shell word (single quotes quote, backslash escapes outside
quotes), is exactly the original argument — every embedded single quote
having been replaced by the close-escape-reopen four-character sequence. -/
theorem C7_sanitize_shell_argument_round_trip :
    sanitize_shell_argument [] = [squoteChar, squoteChar] ∧
    (∀ argument : List Char,
       posixUnquoteWord (sanitize_shell_argument argument) = some argument) := by
  refine ⟨rfl, ?_⟩
  intro a
  cases a with
  | nil => decide
  | cons c t =>
    show posixUnquote false
      (squoteChar :: (pyReplaceSquote (c :: t) ++ [squoteChar])) = _
    rw [posixUnquote_false_squote]
    exact posixUnquote_escaped (c :: t)

/-- Helper: `sanitize_input` is exactly a filter by membership in the
allowed set. -/
lemma sanitize_input_eq_filter (input_str allowed_chars : List Char) :
    sanitize_input input_str allowed_chars
      = input_str.filter (fun c => allowed_chars.contains c) := by
  induction input_str with
  | nil => rfl
  | cons c t ih =>
    show (if allowed_chars.contains c then [c] else [])
        ++ sanitize_input t allowed_chars = _
    by_cases hm : c ∈ allowed_chars <;> simp [hm, List.filter_cons, ih]

/-- C10: `sanitize_input` returns the subsequence of its input consisting
exactly of the characters present in the allow-set, in original order
(equivalently, a filter; in particular it is a sublist of the input and
every returned character is allowed, and an input with no allowed
characters yields the empty string), and it is idempotent. -/
theorem C10_sanitize_input_filter :
    (∀ (input_str allowed_chars : List Char),
       sanitize_input input_str allowed_chars
         = input_str.filter (fun c => allowed_chars.contains c)) ∧
    (∀ (input_str allowed_chars : List Char),
       (sanitize_input input_str allowed_chars).Sublist input_str) ∧
    (∀ (input_str allowed_chars : List Char),
       (sanitize_input input_str allowed_chars).all
         (fun c => allowed_chars.contains c) = true) ∧
    (∀ (input_str allowed_chars : List Char),
       sanitize_input (sanitize_input input_str allowed_chars) allowed_chars
         = sanitize_input input_str allowed_chars) := by
  refine ⟨sanitize_input_eq_filter, ?_, ?_, ?_⟩
  · intro s A
    rw [sanitize_input_eq_filter]
    exact List.filter_sublist s
  · intro s A
    rw [sanitize_input_eq_filter, List.all_eq_true]
    intro x hx
    exact (List.mem_filter.mp hx).2
  · intro s A
    rw [sanitize_input_eq_filter, sanitize_input_eq_filter, List.filter_filter]
    simp

-- Helper lemmas for the length-boundary and trailing-newline theorems

/-- A list whose last element is known contains that element. -/
lemma mem_of_getLast?_eq {α : Type} {l : List α} {a : α}
    (h : l.getLast? = some a) : a ∈ l := by
  obtain ⟨hne, rfl⟩ := List.mem_getLast?_eq_getLast (Option.mem_def.mpr h)
  exact List.getLast_mem hne

/-- Printable ASCII characters are not Python whitespace. -/
lemma pyIsSpace_false_of_printable (c : Char) (h1 : 33 ≤ c.toNat)
    (h2 : c.toNat ≤ 126) : pyIsSpace c = false := by
  simp [pyIsSpace, pyWhitespaceCodes]
  omega

lemma printable_of_isLowerAlnum (c : Char) (h : isLowerAlnum c = true) :
    33 ≤ c.toNat ∧ c.toNat ≤ 126 := by
  simp only [isLowerAlnum, decide_eq_true_eq] at h
  omega

lemma printable_of_isAsciiAlnum (c : Char) (h : isAsciiAlnum c = true) :
    33 ≤ c.toNat ∧ c.toNat ≤ 126 := by
  simp only [isAsciiAlnum, decide_eq_true_eq] at h
  omega

lemma printable_of_isTagChar (c : Char) (h : isTagChar c = true) :
    33 ≤ c.toNat ∧ c.toNat ≤ 126 := by
  simp only [isTagChar, isAsciiAlnum, Bool.or_eq_true, decide_eq_true_eq] at h
  omega

lemma printable_of_isHelmValueChar (c : Char) (h : isHelmValueChar c = true) :
    33 ≤ c.toNat ∧ c.toNat ≤ 126 := by
  simp only [isHelmValueChar, isAsciiAlnum, Bool.or_eq_true, decide_eq_true_eq] at h
  omega

lemma printable_of_isIdStartChar (c : Char) (h : isIdStartChar c = true) :
    33 ≤ c.toNat ∧ c.toNat ≤ 126 := by
  simp only [isIdStartChar, decide_eq_true_eq] at h
  omega

lemma printable_of_isAdChar (c : Char) (h : isAdChar c = true) :
    33 ≤ c.toNat ∧ c.toNat ≤ 126 := by
  simp only [isAdChar, isAsciiAlnum, Bool.or_eq_true, decide_eq_true_eq] at h
  omega

/-- A string whose first character is not whitespace is not all-whitespace. -/
lemma pyIsSpaceStr_false_of_head (c : Char) (t : List Char)
    (h : pyIsSpace c = false) : pyIsSpaceStr (c :: t) = false := by
  simp [pyIsSpaceStr, h]

/-- A full body match is in particular a `$`-match. -/
lemma pyMatchDollar_body (body : List Char → Bool) (s : List Char)
    (h : body s = true) : pyMatchDollar body s = true := by
  simp [pyMatchDollar, h]

/-- Python's `$` also matches just before a trailing newline: a body match
extends to a `$`-match of the string with one newline appended. -/
lemma pyMatchDollar_concat_newline (body : List Char → Bool) (s : List Char)
    (h : body s = true) : pyMatchDollar body (s ++ [nlChar]) = true := by
  unfold pyMatchDollar
  rw [List.getLast?_concat]
  simp [h]

/-- The last element of a list all of whose elements satisfy `p`
satisfies `p`. -/
lemma all_getLast (p : Char → Bool) (s : List Char) (c : Char)
    (hall : s.all p = true) (h : s.getLast? = some c) : p c = true :=
  (List.all_eq_true.mp hall) c (mem_of_getLast?_eq h)

/-- The common accepting path of the pattern validators: non-whitespace
head, length within the bound, and a `$`-match of the body. -/
lemma validator_shape_true (body : List Char → Bool) (L : Nat) (c : Char)
    (t : List Char) (hsp : pyIsSpace c = false) (hlen : (c :: t).length ≤ L)
    (hmatch : pyMatchDollar body (c :: t) = true) :
    (if (c :: t).isEmpty || pyIsSpaceStr (c :: t) then false
     else if (c :: t).length > L then false
     else pyMatchDollar body (c :: t)) = true := by
  have h1 : ((c :: t).isEmpty || pyIsSpaceStr (c :: t)) = false := by
    rw [pyIsSpaceStr_false_of_head c t hsp]
    rfl
  simp only [h1, Bool.false_eq_true, if_false]
  have h2 : ¬((c :: t).length > L) := by omega
  rw [if_neg h2]
  exact hmatch

/-- The common rejecting path of the pattern validators when the length
bound is exceeded. -/
lemma validator_shape_false (body : List Char → Bool) (L : Nat)
    (s : List Char) (hlen : s.length > L) :
    (if s.isEmpty || pyIsSpaceStr s then false
     else if s.length > L then false
     else pyMatchDollar body s) = false := by
  by_cases h : (s.isEmpty || pyIsSpaceStr s) = true
  · rw [if_pos h]
  · rw [if_neg h, if_pos hlen]

/-- Tag-class characters are not slashes. -/
lemma isTagChar_ne_slash (c : Char) (h : isTagChar c = true) : ¬c = '/' := by
  intro he
  subst he
  exact absurd h (by decide)

/-- A string none of whose characters is a slash has no slash substring. -/
lemma pyInStr_slash_false (s : List Char) (h : ∀ x ∈ s, ¬x = '/') :
    pyInStr ['/'] s = false := by
  induction s with
  | nil => rfl
  | cons c t ih =>
    have hc : ('/' == c) = false := by
      have := h c (by simp)
      simp [beq_iff_eq]
      intro he
      exact absurd he.symm this
    show (['/'].isPrefixOf (c :: t) || pyInStr ['/'] t) = false
    rw [ih (fun x hx => h x (by simp [hx]))]
    simp [List.isPrefixOf, hc]

/-- C5: length boundary laws.  For each validated kind with maximum length
`L`, a string of exactly `L` otherwise-valid characters is accepted and a
string of `L + 1` such characters is rejected: Docker image name 255,
Docker tag 128, filename 255 (provided the name is not Windows-reserved),
Helm parameter 255, Helm value 1024, Kubernetes namespace 63, Kubernetes
resource name 253, identifier 255. -/
theorem C5_length_boundaries :
    (∀ s : List Char, imageBody s = true → s.length = 255 →
        validate_docker_image_name s = true) ∧
    (∀ s : List Char, imageBody s = true → s.length = 256 →
        validate_docker_image_name s = false) ∧
    (∀ s : List Char, s.all isTagChar = true → s.length = 128 →
        validate_docker_tag s = true) ∧
    (∀ s : List Char, s.all isTagChar = true → s.length = 129 →
        validate_docker_tag s = false) ∧
    (∀ s : List Char, s.all isTagChar = true → s.length = 255 →
        WINDOWS_RESERVED_NAMES.contains (pyUpper (pySplitext s).1) = false →
        validate_filename s = true) ∧
    (∀ s : List Char, s.all isTagChar = true → s.length = 256 →
        validate_filename s = false) ∧
    (∀ s : List Char, s.all isTagChar = true → s.length = 255 →
        validate_helm_parameter s = true) ∧
    (∀ s : List Char, s.all isTagChar = true → s.length = 256 →
        validate_helm_parameter s = false) ∧
    (∀ s : List Char, s.all isHelmValueChar = true → s.length = 1024 →
        validate_helm_value s = true) ∧
    (∀ s : List Char, s.all isHelmValueChar = true → s.length = 1025 →
        validate_helm_value s = false) ∧
    (∀ s : List Char, nsBody s = true → s.length = 63 →
        validate_kubernetes_namespace s = true) ∧
    (∀ s : List Char, nsBody s = true → s.length = 64 →
        validate_kubernetes_namespace s = false) ∧
    (∀ s : List Char, rnBody s = true → s.length = 253 →
        validate_kubernetes_resource_name s = true) ∧
    (∀ s : List Char, rnBody s = true → s.length = 254 →
        validate_kubernetes_resource_name s = false) ∧
    (∀ s : List Char, idBody s = true → s.length = 255 →
        validate_identifier s = true) ∧
    (∀ s : List Char, idBody s = true → s.length = 256 →
        validate_identifier s = false) := by
  refine ⟨?_, ?_, ?_, ?_, ?_, ?_, ?_, ?_, ?_, ?_, ?_, ?_, ?_, ?_, ?_, ?_⟩
  -- docker image name, length 255
  · intro s hbody hlen
    obtain ⟨c, t, rfl⟩ : ∃ c t, s = c :: t := by
      cases s with
      | nil => exact absurd hbody (by decide)
      | cons c t => exact ⟨c, t, rfl⟩
    have hc : isLowerAlnum c = true := by
      have h2 := hbody
      simp only [imageBody, imageBodySeg, Bool.and_eq_true] at h2
      exact h2.1
    unfold validate_docker_image_name
    exact validator_shape_true imageBody MAX_DOCKER_IMAGE_NAME_LENGTH c t
      (pyIsSpace_false_of_printable c (printable_of_isLowerAlnum c hc).1
        (printable_of_isLowerAlnum c hc).2)
      (by unfold MAX_DOCKER_IMAGE_NAME_LENGTH; omega)
      (pyMatchDollar_body _ _ hbody)
  -- docker image name, length 256
  · intro s hbody hlen
    unfold validate_docker_image_name
    exact validator_shape_false imageBody MAX_DOCKER_IMAGE_NAME_LENGTH s
      (by unfold MAX_DOCKER_IMAGE_NAME_LENGTH; omega)
  -- docker tag, length 128
  · intro s hall hlen
    obtain ⟨c, t, rfl⟩ : ∃ c t, s = c :: t := by
      cases s with
      | nil => simp at hlen
      | cons c t => exact ⟨c, t, rfl⟩
    have hc : isTagChar c = true := (List.all_eq_true.mp hall) c (by simp)
    unfold validate_docker_tag
    have h1 : ((c :: t).isEmpty || pyIsSpaceStr (c :: t)) = false := by
      rw [pyIsSpaceStr_false_of_head c t
        (pyIsSpace_false_of_printable c (printable_of_isTagChar c hc).1
          (printable_of_isTagChar c hc).2)]
      rfl
    simp only [h1, Bool.false_eq_true, if_false]
    exact pyMatchDollar_body _ _ (by simp [tagBody, hall, hlen])
  -- docker tag, length 129
  · intro s hall hlen
    unfold validate_docker_tag
    by_cases h : (s.isEmpty || pyIsSpaceStr s) = true
    · rw [if_pos h]
    · rw [if_neg h]
      unfold pyMatchDollar
      have h1 : tagBody s = false := by simp [tagBody, hlen]
      rw [h1]
      simp only [Bool.false_or]
      cases hgl : s.getLast? with
      | none => rfl
      | some c =>
        have hc : isTagChar c = true := all_getLast isTagChar s c hall hgl
        have hne : ¬(c = nlChar) := by
          intro he
          subst he
          exact absurd hc (by decide)
        simp [hne]
  -- filename, length 255
  · intro s hall hlen hres
    obtain ⟨c, t, rfl⟩ : ∃ c t, s = c :: t := by
      cases s with
      | nil => simp at hlen
      | cons c t => exact ⟨c, t, rfl⟩
    have hc : isTagChar c = true := (List.all_eq_true.mp hall) c (by simp)
    unfold validate_filename
    have h1 : ((c :: t).isEmpty || pyIsSpaceStr (c :: t)) = false := by
      rw [pyIsSpaceStr_false_of_head c t
        (pyIsSpace_false_of_printable c (printable_of_isTagChar c hc).1
          (printable_of_isTagChar c hc).2)]
      rfl
    simp only [h1, Bool.false_eq_true, if_false]
    have h2 : ¬((c :: t).length > MAX_FILENAME_LENGTH) := by
      unfold MAX_FILENAME_LENGTH
      omega
    rw [if_neg h2]
    have h3 : pyInStr ['/'] (c :: t) = false :=
      pyInStr_slash_false _ (fun x hx =>
        isTagChar_ne_slash x ((List.all_eq_true.mp hall) x hx))
    simp only [h3, Bool.false_eq_true, if_false]
    have h4 : pyMatchDollar filenameBody (c :: t) = true :=
      pyMatchDollar_body _ _ (by simp [filenameBody, hall])
    simp only [h4, Bool.not_true, Bool.false_eq_true, if_false]
    simp only [hres, Bool.false_eq_true, if_false]
  -- filename, length 256
  · intro s hall hlen
    unfold validate_filename
    by_cases h : (s.isEmpty || pyIsSpaceStr s) = true
    · rw [if_pos h]
    · rw [if_neg h, if_pos (show s.length > MAX_FILENAME_LENGTH by
        unfold MAX_FILENAME_LENGTH; omega)]
  -- helm parameter, length 255
  · intro s hall hlen
    obtain ⟨c, t, rfl⟩ : ∃ c t, s = c :: t := by
      cases s with
      | nil => simp at hlen
      | cons c t => exact ⟨c, t, rfl⟩
    have hc : isTagChar c = true := (List.all_eq_true.mp hall) c (by simp)
    unfold validate_helm_parameter
    exact validator_shape_true helmParameterBody MAX_HELM_PARAMETER_LENGTH c t
      (pyIsSpace_false_of_printable c (printable_of_isTagChar c hc).1
        (printable_of_isTagChar c hc).2)
      (by unfold MAX_HELM_PARAMETER_LENGTH; omega)
      (pyMatchDollar_body _ _ (by simp [helmParameterBody, hall]))
  -- helm parameter, length 256
  · intro s hall hlen
    unfold validate_helm_parameter
    exact validator_shape_false helmParameterBody MAX_HELM_PARAMETER_LENGTH s
      (by unfold MAX_HELM_PARAMETER_LENGTH; omega)
  -- helm value, length 1024
  · intro s hall hlen
    obtain ⟨c, t, rfl⟩ : ∃ c t, s = c :: t := by
      cases s with
      | nil => simp at hlen
      | cons c t => exact ⟨c, t, rfl⟩
    have hc : isHelmValueChar c = true := (List.all_eq_true.mp hall) c (by simp)
    unfold validate_helm_value
    exact validator_shape_true helmValueBody MAX_HELM_VALUE_LENGTH c t
      (pyIsSpace_false_of_printable c (printable_of_isHelmValueChar c hc).1
        (printable_of_isHelmValueChar c hc).2)
      (by unfold MAX_HELM_VALUE_LENGTH; omega)
      (pyMatchDollar_body _ _ (by simp [helmValueBody, hall]))
  -- helm value, length 1025
  · intro s hall hlen
    unfold validate_helm_value
    exact validator_shape_false helmValueBody MAX_HELM_VALUE_LENGTH s
      (by unfold MAX_HELM_VALUE_LENGTH; omega)
  -- kubernetes namespace, length 63
  · intro s hbody hlen
    obtain ⟨c, t, rfl⟩ : ∃ c t, s = c :: t := by
      cases s with
      | nil => exact absurd hbody (by decide)
      | cons c t => exact ⟨c, t, rfl⟩
    have hc : isLowerAlnum c = true := by
      have h2 := hbody
      simp only [nsBody, Bool.and_eq_true] at h2
      exact h2.1
    unfold validate_kubernetes_namespace
    exact validator_shape_true nsBody MAX_K8S_NAMESPACE_LENGTH c t
      (pyIsSpace_false_of_printable c (printable_of_isLowerAlnum c hc).1
        (printable_of_isLowerAlnum c hc).2)
      (by unfold MAX_K8S_NAMESPACE_LENGTH; omega)
      (pyMatchDollar_body _ _ hbody)
  -- kubernetes namespace, length 64
  · intro s hbody hlen
    unfold validate_kubernetes_namespace
    exact validator_shape_false nsBody MAX_K8S_NAMESPACE_LENGTH s
      (by unfold MAX_K8S_NAMESPACE_LENGTH; omega)
  -- kubernetes resource name, length 253
  · intro s hbody hlen
    obtain ⟨c, t, rfl⟩ : ∃ c t, s = c :: t := by
      cases s with
      | nil => exact absurd hbody (by decide)
      | cons c t => exact ⟨c, t, rfl⟩
    have hc : isLowerAlnum c = true := by
      have h2 := hbody
      simp only [rnBody, Bool.and_eq_true] at h2
      exact h2.1
    unfold validate_kubernetes_resource_name
    exact validator_shape_true rnBody MAX_K8S_RESOURCE_NAME_LENGTH c t
      (pyIsSpace_false_of_printable c (printable_of_isLowerAlnum c hc).1
        (printable_of_isLowerAlnum c hc).2)
      (by unfold MAX_K8S_RESOURCE_NAME_LENGTH; omega)
      (pyMatchDollar_body _ _ hbody)
  -- kubernetes resource name, length 254
  · intro s hbody hlen
    unfold validate_kubernetes_resource_name
    exact validator_shape_false rnBody MAX_K8S_RESOURCE_NAME_LENGTH s
      (by unfold MAX_K8S_RESOURCE_NAME_LENGTH; omega)
  -- identifier, length 255
  · intro s hbody hlen
    obtain ⟨c, t, rfl⟩ : ∃ c t, s = c :: t := by
      cases s with
      | nil => exact absurd hbody (by decide)
      | cons c t => exact ⟨c, t, rfl⟩
    have hc : isIdStartChar c = true := by
      have h2 := hbody
      simp only [idBody, Bool.and_eq_true] at h2
      exact h2.1
    unfold validate_identifier
    exact validator_shape_true idBody MAX_IDENTIFIER_LENGTH c t
      (pyIsSpace_false_of_printable c (printable_of_isIdStartChar c hc).1
        (printable_of_isIdStartChar c hc).2)
      (by unfold MAX_IDENTIFIER_LENGTH; omega)
      (pyMatchDollar_body _ _ hbody)
  -- identifier, length 256
  · intro s hbody hlen
    unfold validate_identifier
    exact validator_shape_false idBody MAX_IDENTIFIER_LENGTH s
      (by unfold MAX_IDENTIFIER_LENGTH; omega)

set_option maxRecDepth 40000 in
/-- Witness for C5 at the concrete boundary strings of repeated `a`. -/
theorem C5_length_boundaries_witness :
    validate_docker_image_name (List.replicate 255 'a') = true ∧
    validate_docker_image_name (List.replicate 256 'a') = false ∧
    validate_docker_tag (List.replicate 128 'a') = true ∧
    validate_docker_tag (List.replicate 129 'a') = false ∧
    validate_filename (List.replicate 255 'a') = true ∧
    validate_filename (List.replicate 256 'a') = false ∧
    validate_helm_parameter (List.replicate 255 'a') = true ∧
    validate_helm_parameter (List.replicate 256 'a') = false ∧
    validate_helm_value (List.replicate 1024 'a') = true ∧
    validate_helm_value (List.replicate 1025 'a') = false ∧
    validate_kubernetes_namespace (List.replicate 63 'a') = true ∧
    validate_kubernetes_namespace (List.replicate 64 'a') = false ∧
    validate_kubernetes_resource_name (List.replicate 253 'a') = true ∧
    validate_kubernetes_resource_name (List.replicate 254 'a') = false ∧
    validate_identifier (List.replicate 255 'a') = true ∧
    validate_identifier (List.replicate 256 'a') = false :=
  ⟨
    C5_length_boundaries.1 (List.replicate 255 'a') (by decide) (by decide),
    C5_length_boundaries.2.1 (List.replicate 256 'a') (by decide) (by decide),
    C5_length_boundaries.2.2.1 (List.replicate 128 'a') (by decide) (by decide),
    C5_length_boundaries.2.2.2.1 (List.replicate 129 'a') (by decide) (by decide),
    C5_length_boundaries.2.2.2.2.1 (List.replicate 255 'a') (by decide) (by decide) (by decide),
    C5_length_boundaries.2.2.2.2.2.1 (List.replicate 256 'a') (by decide) (by decide),
    C5_length_boundaries.2.2.2.2.2.2.1 (List.replicate 255 'a') (by decide) (by decide),
    C5_length_boundaries.2.2.2.2.2.2.2.1 (List.replicate 256 'a') (by decide) (by decide),
    C5_length_boundaries.2.2.2.2.2.2.2.2.1 (List.replicate 1024 'a') (by decide) (by decide),
    C5_length_boundaries.2.2.2.2.2.2.2.2.2.1 (List.replicate 1025 'a') (by decide) (by decide),
    C5_length_boundaries.2.2.2.2.2.2.2.2.2.2.1 (List.replicate 63 'a') (by decide) (by decide),
    C5_length_boundaries.2.2.2.2.2.2.2.2.2.2.2.1 (List.replicate 64 'a') (by decide) (by decide),
    C5_length_boundaries.2.2.2.2.2.2.2.2.2.2.2.2.1 (List.replicate 253 'a') (by decide) (by decide),
    C5_length_boundaries.2.2.2.2.2.2.2.2.2.2.2.2.2.1 (List.replicate 254 'a') (by decide) (by decide),
    C5_length_boundaries.2.2.2.2.2.2.2.2.2.2.2.2.2.2.1 (List.replicate 255 'a') (by decide) (by decide),
    C5_length_boundaries.2.2.2.2.2.2.2.2.2.2.2.2.2.2.2 (List.replicate 256 'a') (by decide) (by decide)⟩

/-- C6: because every compiled pattern is anchored with Python's `$`, which
also matches just before a string-final newline, each pattern-based
validator accepts an otherwise-valid input followed by one trailing
newline (the newline itself being outside every allowed character class),
provided the lengthened string still passes the validator's length bound.
-/
theorem C6_trailing_newline :
    (∀ s : List Char, imageBody s = true → s.length ≤ 254 →
        validate_docker_image_name (s ++ [nlChar]) = true) ∧
    (∀ s : List Char, tagBody s = true →
        validate_docker_tag (s ++ [nlChar]) = true) ∧
    (∀ s : List Char, s.all isTagChar = true → s ≠ [] → s.length ≤ 254 →
        WINDOWS_RESERVED_NAMES.contains
          (pyUpper (pySplitext (s ++ [nlChar])).1) = false →
        validate_filename (s ++ [nlChar]) = true) ∧
    (∀ s : List Char, s.all isTagChar = true → s ≠ [] → s.length ≤ 254 →
        validate_helm_parameter (s ++ [nlChar]) = true) ∧
    (∀ s : List Char, s.all isHelmValueChar = true → s ≠ [] → s.length ≤ 1023 →
        validate_helm_value (s ++ [nlChar]) = true) ∧
    (∀ s : List Char, nsBody s = true → s.length ≤ 62 →
        validate_kubernetes_namespace (s ++ [nlChar]) = true) ∧
    (∀ s : List Char, rnBody s = true → s.length ≤ 252 →
        validate_kubernetes_resource_name (s ++ [nlChar]) = true) ∧
    (∀ s : List Char, idBody s = true → s.length ≤ 254 →
        validate_identifier (s ++ [nlChar]) = true) ∧
    (∀ s : List Char, adBody s = true →
        is_alphanumeric_with_dash (s ++ [nlChar]) = true) := by
  refine ⟨?_, ?_, ?_, ?_, ?_, ?_, ?_, ?_, ?_⟩
  -- docker image name
  · intro s hbody hlen
    obtain ⟨c, t, rfl⟩ : ∃ c t, s = c :: t := by
      cases s with
      | nil => exact absurd hbody (by decide)
      | cons c t => exact ⟨c, t, rfl⟩
    have hc : isLowerAlnum c = true := by
      have h2 := hbody
      simp only [imageBody, imageBodySeg, Bool.and_eq_true] at h2
      exact h2.1
    have hm := pyMatchDollar_concat_newline imageBody _ hbody
    rw [List.cons_append] at hm ⊢
    unfold validate_docker_image_name
    exact validator_shape_true imageBody MAX_DOCKER_IMAGE_NAME_LENGTH c
      (t ++ [nlChar])
      (pyIsSpace_false_of_printable c (printable_of_isLowerAlnum c hc).1
        (printable_of_isLowerAlnum c hc).2)
      (by
        unfold MAX_DOCKER_IMAGE_NAME_LENGTH
        simp only [List.length_cons, List.length_append, List.length_nil] at hlen ⊢
        omega)
      hm
  -- docker tag
  · intro s hbody
    obtain ⟨c, t, rfl⟩ : ∃ c t, s = c :: t := by
      cases s with
      | nil => exact absurd hbody (by decide)
      | cons c t => exact ⟨c, t, rfl⟩
    have hparts := hbody
    simp only [tagBody, Bool.and_eq_true] at hparts
    have hc : isTagChar c = true := (List.all_eq_true.mp hparts.1) c (by simp)
    have hm := pyMatchDollar_concat_newline tagBody _ hbody
    rw [List.cons_append] at hm ⊢
    unfold validate_docker_tag
    have h1 : ((c :: (t ++ [nlChar])).isEmpty
        || pyIsSpaceStr (c :: (t ++ [nlChar]))) = false := by
      rw [pyIsSpaceStr_false_of_head _ _
        (pyIsSpace_false_of_printable c (printable_of_isTagChar c hc).1
          (printable_of_isTagChar c hc).2)]
      rfl
    simp only [h1, Bool.false_eq_true, if_false]
    exact hm
  -- filename
  · intro s hall hne hlen hres
    obtain ⟨c, t, rfl⟩ := List.exists_cons_of_ne_nil hne
    have hc : isTagChar c = true := (List.all_eq_true.mp hall) c (by simp)
    have hm : pyMatchDollar filenameBody ((c :: t) ++ [nlChar]) = true :=
      pyMatchDollar_concat_newline _ _ (by simp [filenameBody, hall])
    rw [List.cons_append] at hm hres ⊢
    unfold validate_filename
    have h1 : ((c :: (t ++ [nlChar])).isEmpty
        || pyIsSpaceStr (c :: (t ++ [nlChar]))) = false := by
      rw [pyIsSpaceStr_false_of_head _ _
        (pyIsSpace_false_of_printable c (printable_of_isTagChar c hc).1
          (printable_of_isTagChar c hc).2)]
      rfl
    simp only [h1, Bool.false_eq_true, if_false]
    have h2 : ¬((c :: (t ++ [nlChar])).length > MAX_FILENAME_LENGTH) := by
      unfold MAX_FILENAME_LENGTH
      simp only [List.length_cons] at hlen
      simp only [List.length_cons, List.length_append, List.length_nil]
      omega
    rw [if_neg h2]
    have h3 : pyInStr ['/'] (c :: (t ++ [nlChar])) = false := by
      refine pyInStr_slash_false _ ?_
      intro x hx
      simp only [List.mem_cons, List.mem_append, List.not_mem_nil, or_false] at hx
      rcases hx with rfl | hx | rfl
      · exact isTagChar_ne_slash x ((List.all_eq_true.mp hall) x (by simp))
      · exact isTagChar_ne_slash x ((List.all_eq_true.mp hall) x (by simp [hx]))
      · decide
    simp only [h3, Bool.false_eq_true, if_false]
    simp only [hm, Bool.not_true, Bool.false_eq_true, if_false]
    simp only [hres, Bool.false_eq_true, if_false]
  -- helm parameter
  · intro s hall hne hlen
    obtain ⟨c, t, rfl⟩ := List.exists_cons_of_ne_nil hne
    have hc : isTagChar c = true := (List.all_eq_true.mp hall) c (by simp)
    have hm : pyMatchDollar helmParameterBody ((c :: t) ++ [nlChar]) = true :=
      pyMatchDollar_concat_newline _ _ (by simp [helmParameterBody, hall])
    rw [List.cons_append] at hm ⊢
    unfold validate_helm_parameter
    exact validator_shape_true helmParameterBody MAX_HELM_PARAMETER_LENGTH c
      (t ++ [nlChar])
      (pyIsSpace_false_of_printable c (printable_of_isTagChar c hc).1
        (printable_of_isTagChar c hc).2)
      (by
        unfold MAX_HELM_PARAMETER_LENGTH
        simp only [List.length_cons, List.length_append, List.length_nil] at hlen ⊢
        omega)
      hm
  -- helm value
  · intro s hall hne hlen
    obtain ⟨c, t, rfl⟩ := List.exists_cons_of_ne_nil hne
    have hc : isHelmValueChar c = true := (List.all_eq_true.mp hall) c (by simp)
    have hm : pyMatchDollar helmValueBody ((c :: t) ++ [nlChar]) = true :=
      pyMatchDollar_concat_newline _ _ (by simp [helmValueBody, hall])
    rw [List.cons_append] at hm ⊢
    unfold validate_helm_value
    exact validator_shape_true helmValueBody MAX_HELM_VALUE_LENGTH c
      (t ++ [nlChar])
      (pyIsSpace_false_of_printable c (printable_of_isHelmValueChar c hc).1
        (printable_of_isHelmValueChar c hc).2)
      (by
        unfold MAX_HELM_VALUE_LENGTH
        simp only [List.length_cons, List.length_append, List.length_nil] at hlen ⊢
        omega)
      hm
  -- kubernetes namespace
  · intro s hbody hlen
    obtain ⟨c, t, rfl⟩ : ∃ c t, s = c :: t := by
      cases s with
      | nil => exact absurd hbody (by decide)
      | cons c t => exact ⟨c, t, rfl⟩
    have hc : isLowerAlnum c = true := by
      have h2 := hbody
      simp only [nsBody, Bool.and_eq_true] at h2
      exact h2.1
    have hm := pyMatchDollar_concat_newline nsBody _ hbody
    rw [List.cons_append] at hm ⊢
    unfold validate_kubernetes_namespace
    exact validator_shape_true nsBody MAX_K8S_NAMESPACE_LENGTH c (t ++ [nlChar])
      (pyIsSpace_false_of_printable c (printable_of_isLowerAlnum c hc).1
        (printable_of_isLowerAlnum c hc).2)
      (by
        unfold MAX_K8S_NAMESPACE_LENGTH
        simp only [List.length_cons, List.length_append, List.length_nil] at hlen ⊢
        omega)
      hm
  -- kubernetes resource name
  · intro s hbody hlen
    obtain ⟨c, t, rfl⟩ : ∃ c t, s = c :: t := by
      cases s with
      | nil => exact absurd hbody (by decide)
      | cons c t => exact ⟨c, t, rfl⟩
    have hc : isLowerAlnum c = true := by
      have h2 := hbody
      simp only [rnBody, Bool.and_eq_true] at h2
      exact h2.1
    have hm := pyMatchDollar_concat_newline rnBody _ hbody
    rw [List.cons_append] at hm ⊢
    unfold validate_kubernetes_resource_name
    exact validator_shape_true rnBody MAX_K8S_RESOURCE_NAME_LENGTH c
      (t ++ [nlChar])
      (pyIsSpace_false_of_printable c (printable_of_isLowerAlnum c hc).1
        (printable_of_isLowerAlnum c hc).2)
      (by
        unfold MAX_K8S_RESOURCE_NAME_LENGTH
        simp only [List.length_cons, List.length_append, List.length_nil] at hlen ⊢
        omega)
      hm
  -- identifier
  · intro s hbody hlen
    obtain ⟨c, t, rfl⟩ : ∃ c t, s = c :: t := by
      cases s with
      | nil => exact absurd hbody (by decide)
      | cons c t => exact ⟨c, t, rfl⟩
    have hc : isIdStartChar c = true := by
      have h2 := hbody
      simp only [idBody, Bool.and_eq_true] at h2
      exact h2.1
    have hm := pyMatchDollar_concat_newline idBody _ hbody
    rw [List.cons_append] at hm ⊢
    unfold validate_identifier
    exact validator_shape_true idBody MAX_IDENTIFIER_LENGTH c (t ++ [nlChar])
      (pyIsSpace_false_of_printable c (printable_of_isIdStartChar c hc).1
        (printable_of_isIdStartChar c hc).2)
      (by
        unfold MAX_IDENTIFIER_LENGTH
        simp only [List.length_cons, List.length_append, List.length_nil] at hlen ⊢
        omega)
      hm
  -- alphanumeric with dash
  · intro s hbody
    obtain ⟨c, t, rfl⟩ : ∃ c t, s = c :: t := by
      cases s with
      | nil => exact absurd hbody (by decide)
      | cons c t => exact ⟨c, t, rfl⟩
    have hparts := hbody
    simp only [adBody, Bool.and_eq_true] at hparts
    have hc : isAdChar c = true := (List.all_eq_true.mp hparts.2) c (by simp)
    have hm := pyMatchDollar_concat_newline adBody _ hbody
    rw [List.cons_append] at hm ⊢
    unfold is_alphanumeric_with_dash
    have h1 : ((c :: (t ++ [nlChar])).isEmpty
        || pyIsSpaceStr (c :: (t ++ [nlChar]))) = false := by
      rw [pyIsSpaceStr_false_of_head _ _
        (pyIsSpace_false_of_printable c (printable_of_isAdChar c hc).1
          (printable_of_isAdChar c hc).2)]
      rfl
    simp only [h1, Bool.false_eq_true, if_false]
    exact hm

/-- Witness for C6 at concrete otherwise-valid inputs with a trailing
newline (for example `validate_docker_tag` accepts the six-letter word
`latest` followed by a newline). -/
theorem C6_trailing_newline_witness :
    validate_docker_image_name ("myapp".data ++ [nlChar]) = true ∧
    validate_docker_tag ("latest".data ++ [nlChar]) = true ∧
    validate_filename ("config.json".data ++ [nlChar]) = true ∧
    validate_helm_parameter ("app.replicas".data ++ [nlChar]) = true ∧
    validate_helm_value ("value123".data ++ [nlChar]) = true ∧
    validate_kubernetes_namespace ("default".data ++ [nlChar]) = true ∧
    validate_kubernetes_resource_name ("my-pod".data ++ [nlChar]) = true ∧
    validate_identifier ("myVar".data ++ [nlChar]) = true ∧
    is_alphanumeric_with_dash ("app123".data ++ [nlChar]) = true :=
  ⟨C6_trailing_newline.1 "myapp".data (by decide) (by decide),
   C6_trailing_newline.2.1 "latest".data (by decide),
   C6_trailing_newline.2.2.1 "config.json".data (by decide) (by decide)
     (by decide) (by decide),
   C6_trailing_newline.2.2.2.1 "app.replicas".data (by decide) (by decide)
     (by decide),
   C6_trailing_newline.2.2.2.2.1 "value123".data (by decide) (by decide)
     (by decide),
   C6_trailing_newline.2.2.2.2.2.1 "default".data (by decide) (by decide),
   C6_trailing_newline.2.2.2.2.2.2.1 "my-pod".data (by decide) (by decide),
   C6_trailing_newline.2.2.2.2.2.2.2.1 "myVar".data (by decide) (by decide),
   C6_trailing_newline.2.2.2.2.2.2.2.2 "app123".data (by decide)⟩

/-- C8: `contains_path_traversal` returns true whenever the lower-cased
path contains any of the configured traversal sequences — the dot-dot
forms, the backslash variants as spelled in the source (with each doubled
backslash evaluated to one backslash), and the encoded variants `%2e%2e`,
`%252e%252e`, `..%2f`, `..%5c`; in particular it flags `%2e%2e/passwd`. -/
theorem C8_path_traversal_sequences :
    (∀ path : List Char,
       PATH_TRAVERSAL_SEQUENCES.any
         (fun sequence => pyInStr (pyLower sequence) (pyLower path)) = true →
       contains_path_traversal path = true) ∧
    contains_path_traversal "%2e%2e/passwd".data = true := by
  constructor
  · intro path h
    unfold contains_path_traversal
    by_cases h1 : travRegexSearch path = true
    · simp [h1]
    · simp [h1, h]
  · decide

/-- Witness for C8 at the claim's own example `%2e%2e/passwd`. -/
theorem C8_path_traversal_sequences_witness :
    PATH_TRAVERSAL_SEQUENCES.any
      (fun sequence =>
        pyInStr (pyLower sequence) (pyLower "%2e%2e/passwd".data)) = true ∧
    contains_path_traversal "%2e%2e/passwd".data = true :=
  ⟨by decide, C8_path_traversal_sequences.1 "%2e%2e/passwd".data (by decide)⟩

/-- C9: every boolean validator of the public surface returns false on the
empty string and on any whitespace-only string (for `validate_file_path`,
on an empty or whitespace-only path, for any base), and every public
function, handed a non-text value, raises the `TypeError` whose message
names the offending parameter and the value's runtime type; the type check
is the first statement of each function, so the error precedes any pattern
or filesystem work. -/
theorem C9_guards_and_type_errors :
    validate_docker_image_name_py (PyVal.str []) = Except.ok false ∧
    (∀ s : List Char, pyIsSpaceStr s = true →
        validate_docker_image_name_py (PyVal.str s) = Except.ok false) ∧
    (∀ ty : List Char, validate_docker_image_name_py (PyVal.nonStr ty)
        = Except.error (PyErr.typeError (typeErrorMsg "image_name".data ty))) ∧
    validate_docker_tag_py (PyVal.str []) = Except.ok false ∧
    (∀ s : List Char, pyIsSpaceStr s = true →
        validate_docker_tag_py (PyVal.str s) = Except.ok false) ∧
    (∀ ty : List Char, validate_docker_tag_py (PyVal.nonStr ty)
        = Except.error (PyErr.typeError (typeErrorMsg "tag".data ty))) ∧
    validate_filename_py (PyVal.str []) = Except.ok false ∧
    (∀ s : List Char, pyIsSpaceStr s = true →
        validate_filename_py (PyVal.str s) = Except.ok false) ∧
    (∀ ty : List Char, validate_filename_py (PyVal.nonStr ty)
        = Except.error (PyErr.typeError (typeErrorMsg "filename".data ty))) ∧
    is_safe_filename_py (PyVal.str []) = Except.ok false ∧
    (∀ s : List Char, pyIsSpaceStr s = true →
        is_safe_filename_py (PyVal.str s) = Except.ok false) ∧
    (∀ ty : List Char, is_safe_filename_py (PyVal.nonStr ty)
        = Except.error (PyErr.typeError (typeErrorMsg "filename".data ty))) ∧
    validate_helm_parameter_py (PyVal.str []) = Except.ok false ∧
    (∀ s : List Char, pyIsSpaceStr s = true →
        validate_helm_parameter_py (PyVal.str s) = Except.ok false) ∧
    (∀ ty : List Char, validate_helm_parameter_py (PyVal.nonStr ty)
        = Except.error (PyErr.typeError (typeErrorMsg "parameter".data ty))) ∧
    validate_helm_value_py (PyVal.str []) = Except.ok false ∧
    (∀ s : List Char, pyIsSpaceStr s = true →
        validate_helm_value_py (PyVal.str s) = Except.ok false) ∧
    (∀ ty : List Char, validate_helm_value_py (PyVal.nonStr ty)
        = Except.error (PyErr.typeError (typeErrorMsg "value".data ty))) ∧
    validate_kubernetes_namespace_py (PyVal.str []) = Except.ok false ∧
    (∀ s : List Char, pyIsSpaceStr s = true →
        validate_kubernetes_namespace_py (PyVal.str s) = Except.ok false) ∧
    (∀ ty : List Char, validate_kubernetes_namespace_py (PyVal.nonStr ty)
        = Except.error (PyErr.typeError (typeErrorMsg "namespace_name".data ty))) ∧
    validate_kubernetes_resource_name_py (PyVal.str []) = Except.ok false ∧
    (∀ s : List Char, pyIsSpaceStr s = true →
        validate_kubernetes_resource_name_py (PyVal.str s) = Except.ok false) ∧
    (∀ ty : List Char, validate_kubernetes_resource_name_py (PyVal.nonStr ty)
        = Except.error (PyErr.typeError (typeErrorMsg "resource_name".data ty))) ∧
    validate_identifier_py (PyVal.str []) = Except.ok false ∧
    (∀ s : List Char, pyIsSpaceStr s = true →
        validate_identifier_py (PyVal.str s) = Except.ok false) ∧
    (∀ ty : List Char, validate_identifier_py (PyVal.nonStr ty)
        = Except.error (PyErr.typeError (typeErrorMsg "identifier".data ty))) ∧
    is_valid_identifier_py (PyVal.str []) = Except.ok false ∧
    (∀ s : List Char, pyIsSpaceStr s = true →
        is_valid_identifier_py (PyVal.str s) = Except.ok false) ∧
    (∀ ty : List Char, is_valid_identifier_py (PyVal.nonStr ty)
        = Except.error (PyErr.typeError (typeErrorMsg "identifier".data ty))) ∧
    is_alphanumeric_py (PyVal.str []) = Except.ok false ∧
    (∀ s : List Char, pyIsSpaceStr s = true →
        is_alphanumeric_py (PyVal.str s) = Except.ok false) ∧
    (∀ ty : List Char, is_alphanumeric_py (PyVal.nonStr ty)
        = Except.error (PyErr.typeError (typeErrorMsg "input_str".data ty))) ∧
    is_alphanumeric_with_dash_py (PyVal.str []) = Except.ok false ∧
    (∀ s : List Char, pyIsSpaceStr s = true →
        is_alphanumeric_with_dash_py (PyVal.str s) = Except.ok false) ∧
    (∀ ty : List Char, is_alphanumeric_with_dash_py (PyVal.nonStr ty)
        = Except.error (PyErr.typeError (typeErrorMsg "input_str".data ty))) ∧
    (∀ ty : List Char, contains_shell_metacharacters_py (PyVal.nonStr ty)
        = Except.error (PyErr.typeError (typeErrorMsg "input_str".data ty))) ∧
    (∀ ty : List Char, contains_path_traversal_py (PyVal.nonStr ty)
        = Except.error (PyErr.typeError (typeErrorMsg "path".data ty))) ∧
    (∀ ty : List Char, sanitize_shell_argument_py (PyVal.nonStr ty)
        = Except.error (PyErr.typeError (typeErrorMsg "argument".data ty))) ∧
    (∀ (ty : List Char) (v : PyVal), sanitize_input_py (PyVal.nonStr ty) v
        = Except.error (PyErr.typeError (typeErrorMsg "input_str".data ty))) ∧
    (∀ (a ty : List Char), sanitize_input_py (PyVal.str a) (PyVal.nonStr ty)
        = Except.error (PyErr.typeError (typeErrorMsg "allowed_chars".data ty))) ∧
    (∀ (env : PyEnv) (b : List Char),
        validate_file_path_py env (PyVal.str []) (PyVal.str b) = Except.ok false) ∧
    (∀ (env : PyEnv) (b s : List Char), pyIsSpaceStr s = true →
        validate_file_path_py env (PyVal.str s) (PyVal.str b) = Except.ok false) ∧
    (∀ (env : PyEnv) (ty : List Char) (v : PyVal),
        validate_file_path_py env (PyVal.nonStr ty) v
        = Except.error (PyErr.typeError (typeErrorMsg "path".data ty))) ∧
    (∀ (env : PyEnv) (p ty : List Char),
        validate_file_path_py env (PyVal.str p) (PyVal.nonStr ty)
        = Except.error (PyErr.typeError (typeErrorMsg "base_path".data ty))) ∧
    (∀ (env : PyEnv) (ty : List Char) (v : PyVal),
        is_within_directory_py env (PyVal.nonStr ty) v
        = Except.error (PyErr.typeError (typeErrorMsg "path".data ty))) ∧
    (∀ (env : PyEnv) (p ty : List Char),
        is_within_directory_py env (PyVal.str p) (PyVal.nonStr ty)
        = Except.error (PyErr.typeError (typeErrorMsg "base_directory".data ty))) := by
  refine ⟨?_, ?_, ?_, ?_, ?_, ?_, ?_, ?_, ?_, ?_, ?_, ?_, ?_, ?_, ?_, ?_, ?_, ?_, ?_, ?_, ?_, ?_, ?_, ?_, ?_, ?_, ?_, ?_, ?_, ?_, ?_, ?_, ?_, ?_, ?_, ?_, ?_, ?_, ?_, ?_, ?_, ?_, ?_, ?_, ?_, ?_, ?_⟩
  · rfl
  · intro s h
    simp [validate_docker_image_name_py, validate_docker_image_name, h]
  · intro ty
    rfl
  · rfl
  · intro s h
    simp [validate_docker_tag_py, validate_docker_tag, h]
  · intro ty
    rfl
  · rfl
  · intro s h
    simp [validate_filename_py, validate_filename, h]
  · intro ty
    rfl
  · rfl
  · intro s h
    simp [is_safe_filename_py, validate_filename_py, validate_filename, h]
  · intro ty
    rfl
  · rfl
  · intro s h
    simp [validate_helm_parameter_py, validate_helm_parameter, h]
  · intro ty
    rfl
  · rfl
  · intro s h
    simp [validate_helm_value_py, validate_helm_value, h]
  · intro ty
    rfl
  · rfl
  · intro s h
    simp [validate_kubernetes_namespace_py, validate_kubernetes_namespace, h]
  · intro ty
    rfl
  · rfl
  · intro s h
    simp [validate_kubernetes_resource_name_py, validate_kubernetes_resource_name, h]
  · intro ty
    rfl
  · rfl
  · intro s h
    simp [validate_identifier_py, validate_identifier, h]
  · intro ty
    rfl
  · rfl
  · intro s h
    simp [is_valid_identifier_py, validate_identifier_py, validate_identifier, h]
  · intro ty
    rfl
  · rfl
  · intro s h
    simp [is_alphanumeric_py, is_alphanumeric, h]
  · intro ty
    rfl
  · rfl
  · intro s h
    simp [is_alphanumeric_with_dash_py, is_alphanumeric_with_dash, h]
  · intro ty
    rfl
  · intro ty
    rfl
  · intro ty
    rfl
  · intro ty
    rfl
  · intro ty v
    rfl
  · intro a ty
    rfl
  · intro env b
    rfl
  · intro env b s h
    simp [validate_file_path_py, validate_file_path, h]
  · intro env ty v
    rfl
  · intro env p ty
    rfl
  · intro env ty v
    rfl
  · intro env p ty
    rfl

/-- Witness for C9: the whitespace-only guards evaluated at the
one-character string of a space. -/
theorem C9_guards_and_type_errors_witness :
    validate_docker_image_name_py (PyVal.str [' ']) = Except.ok false ∧
    validate_docker_tag_py (PyVal.str [' ']) = Except.ok false ∧
    validate_filename_py (PyVal.str [' ']) = Except.ok false ∧
    is_safe_filename_py (PyVal.str [' ']) = Except.ok false ∧
    validate_helm_parameter_py (PyVal.str [' ']) = Except.ok false ∧
    validate_helm_value_py (PyVal.str [' ']) = Except.ok false ∧
    validate_kubernetes_namespace_py (PyVal.str [' ']) = Except.ok false ∧
    validate_kubernetes_resource_name_py (PyVal.str [' ']) = Except.ok false ∧
    validate_identifier_py (PyVal.str [' ']) = Except.ok false ∧
    is_valid_identifier_py (PyVal.str [' ']) = Except.ok false ∧
    is_alphanumeric_py (PyVal.str [' ']) = Except.ok false ∧
    is_alphanumeric_with_dash_py (PyVal.str [' ']) = Except.ok false ∧
    validate_file_path_py env0 (PyVal.str [' ']) (PyVal.str "/var".data)
      = Except.ok false :=
  ⟨
   C9_guards_and_type_errors.2.1 [' '] (by decide),
   C9_guards_and_type_errors.2.2.2.2.1 [' '] (by decide),
   C9_guards_and_type_errors.2.2.2.2.2.2.2.1 [' '] (by decide),
   C9_guards_and_type_errors.2.2.2.2.2.2.2.2.2.2.1 [' '] (by decide),
   C9_guards_and_type_errors.2.2.2.2.2.2.2.2.2.2.2.2.2.1 [' '] (by decide),
   C9_guards_and_type_errors.2.2.2.2.2.2.2.2.2.2.2.2.2.2.2.2.1 [' '] (by decide),
   C9_guards_and_type_errors.2.2.2.2.2.2.2.2.2.2.2.2.2.2.2.2.2.2.2.1 [' '] (by decide),
   C9_guards_and_type_errors.2.2.2.2.2.2.2.2.2.2.2.2.2.2.2.2.2.2.2.2.2.2.1 [' '] (by decide),
   C9_guards_and_type_errors.2.2.2.2.2.2.2.2.2.2.2.2.2.2.2.2.2.2.2.2.2.2.2.2.2.1 [' '] (by decide),
   C9_guards_and_type_errors.2.2.2.2.2.2.2.2.2.2.2.2.2.2.2.2.2.2.2.2.2.2.2.2.2.2.2.2.1 [' '] (by decide),
   C9_guards_and_type_errors.2.2.2.2.2.2.2.2.2.2.2.2.2.2.2.2.2.2.2.2.2.2.2.2.2.2.2.2.2.2.2.1 [' '] (by decide),
   C9_guards_and_type_errors.2.2.2.2.2.2.2.2.2.2.2.2.2.2.2.2.2.2.2.2.2.2.2.2.2.2.2.2.2.2.2.2.2.2.1 [' '] (by decide),
   C9_guards_and_type_errors.2.2.2.2.2.2.2.2.2.2.2.2.2.2.2.2.2.2.2.2.2.2.2.2.2.2.2.2.2.2.2.2.2.2.2.2.2.2.2.2.2.2.1 env0 "/var".data [' '] (by decide)⟩
